import Mathlib

/-!
Shallow embedding of the construction-tracing container demo
(src/CTAD.cpp and src/typeChecks.cpp).

Modelling decisions:
- C++ floating literals are modelled as rationals (exact values; the demo
  only ever copies them, so representation error is irrelevant to equality
  claims). The implicit conversion of an integer literal to the deduced
  floating element type is `intToFloating`.
- `TypedClass<T>` (the instrumented cell) is a structure holding one value.
  Each constructor of the C++ class prints one line; we model the printed
  lines as a list of `Event` values (the trace log), returned alongside the
  constructed object. The demangled type name that the C++ code computes
  with abi.cxa_demangle is passed in as a `String` parameter.
- `DynamicArray<T>` wraps `std::vector<T>`. Each construction path of
  CTAD.cpp main is embedded as one function returning the container
  together with the trace events generated by evaluating the whole
  construction expression, following the C++ evaluation order:
  initializer-list elements are materialised left to right, then
  `std::vector` copy-constructs them into its storage; the fill
  constructor `vector(n, val)` copy-constructs `val` exactly `n` times.
-/

/-- Kind of a cell construction event: the three constructors of
`TypedClass<T>` in CTAD.cpp lines 21-40. -/
inductive EventKind
  | Default
  | ValueInit
  | Copy
deriving DecidableEq, Repr

/-- One trace-log entry: a constructor of `TypedClass<T>` printing its
line. `typeName` is the demangled name printed; only the copy constructor
prints the held value (CTAD.cpp line 39), hence `value` is optional. -/
structure Event (α : Type) where
  kind : EventKind
  typeName : String
  value : Option α
deriving DecidableEq, Repr

/-- Embedding of `TypedClass<T>` (CTAD.cpp lines 17-44): a wrapper owning
exactly one value of type `α`. -/
structure TypedClass (α : Type) where
  val : α
deriving DecidableEq, Repr

/-- Value construction `TypedClass(const T &x)` (CTAD.cpp line 27):
stores `x` and prints one parameterized-constructor line (no value shown). -/
def TypedClass.mkValue (name : String) (x : α) : TypedClass α × List (Event α) :=
  (⟨x⟩, [⟨EventKind.ValueInit, name, none⟩])

/-- Copy construction `TypedClass(const TypedClass &obj)` (CTAD.cpp
line 35): copies the held value and prints one copy-constructor line
showing the value. -/
def TypedClass.copy (name : String) (c : TypedClass α) : TypedClass α × List (Event α) :=
  (⟨c.val⟩, [⟨EventKind.Copy, name, some c.val⟩])

/-- Getter `getData` (CTAD.cpp line 43): returns a copy of the held value. -/
def TypedClass.getData (c : TypedClass α) : α := c.val

/-- Embedding of `DynamicArray<T>` (CTAD.cpp lines 47-70): a wrapper
around `std::vector<T>`. -/
structure DynamicArray (ε : Type) where
  arr : List ε
deriving DecidableEq, Repr

/-- `DynamicArray()` (CTAD.cpp line 52): empty vector, no trace events. -/
def DynamicArray.mkEmpty (α : Type) : DynamicArray α × List (Event α) :=
  (⟨[]⟩, [])

/-- `DynamicArray(size_t sz)` (CTAD.cpp line 55): `arr(sz, T());` builds
`sz` copies of the value-initialized `T`. Instantiated at a scalar element
type: value initialization yields the default value and no cell is
constructed, so the trace is empty. -/
def DynamicArray.mkSized (α : Type) [Inhabited α] (sz : Nat) :
    DynamicArray α × List (Event α) :=
  (⟨List.replicate sz default⟩, [])

/-- `DynamicArray(std::initializer_list<T>)` (CTAD.cpp line 58)
instantiated at a scalar element type (cases 1 and 2 of main): the vector
copies the scalars; no cell exists, so no trace events. -/
def DynamicArray.mkInitList (vs : List α) : DynamicArray α × List (Event α) :=
  (⟨vs⟩, [])

/-- `DynamicArray(std::initializer_list<T>)` (CTAD.cpp line 58)
instantiated at `T = TypedClass α`, called with already-constructed cells:
`std::vector` copy-constructs each list element into its storage, in
order, emitting one Copy event per cell. -/
def DynamicArray.mkInitListCells (name : String) (cs : List (TypedClass α)) :
    DynamicArray (TypedClass α) × List (Event α) :=
  (⟨cs.map (fun c => (TypedClass.copy name c).1)⟩,
   (cs.map (fun c => (TypedClass.copy name c).2)).flatten)

/-- The unbraced call `DynamicArray(sz, v)` with a scalar `v` (case 5 of
main, CTAD.cpp line 132): the deduction guide on line 78 picks the element
type `TypedClass α`; the scalar converts once into a temporary cell bound
to the `const T &val` parameter (one ValueInit event), then
`arr(sz, val)` copy-constructs that cell `sz` times (one Copy event per
element), per `std::vector`'s fill constructor. -/
def DynamicArray.mkSizedFill (name : String) (sz : Nat) (v : α) :
    DynamicArray (TypedClass α) × List (Event α) :=
  let tmp := TypedClass.mkValue name v
  (⟨List.replicate sz (TypedClass.copy name tmp.1).1⟩,
   tmp.2 ++ (List.replicate sz (TypedClass.copy name tmp.1).2).flatten)

/-- The braced call `DynamicArray(braced list of scalars)` whose literals
force deduction through the guide (case 3 of main, CTAD.cpp line 109):
class deduction yields element type `TypedClass α`, then each scalar of
the braced list is converted to a cell left to right (one ValueInit each),
and `std::vector` copy-constructs the materialized list elements into its
storage (one Copy each). -/
def DynamicArray.mkBracedMixed (name : String) (vs : List α) :
    DynamicArray (TypedClass α) × List (Event α) :=
  let cells := vs.map (fun v => (TypedClass.mkValue name v).1)
  ((DynamicArray.mkInitListCells name cells).1,
   (vs.map (fun v => (TypedClass.mkValue name v).2)).flatten ++
     (DynamicArray.mkInitListCells name cells).2)

/-- The integral-to-floating standard conversion applied to the literal
`10` in `DynamicArray arr2(braced 10, 1.3)`: exact for integers of this
size. -/
def intToFloating (i : Int) : ℚ := (i : ℚ)

/-- The demangled element type name of case 3 and case 5. -/
def tcDouble : String := "TypedClass<double>"

/-- Case 3 of main (CTAD.cpp line 109): the mixed braced list of the
integer literal 10 and the floating literal 1.3. -/
def caseThree : DynamicArray (TypedClass ℚ) × List (Event ℚ) :=
  DynamicArray.mkBracedMixed tcDouble [intToFloating 10, (13 : ℚ) / 10]

/- ## Embedding of typeChecks.cpp -/

/-- The concrete types exercised by typeChecks.cpp main: the registered
case set of `compileTimeTypeCheck` is int, double, Id of float; the char
pointer of a string literal and Id of double are unregistered. -/
inductive Ty
  | int
  | double
  | charPtr
  | idFloat
  | idDouble
deriving DecidableEq, Repr

/-- Embedding of `compileTimeTypeCheck` (typeChecks.cpp lines 25-34): an
if-constexpr chain on exact type equality. Each branch performs exactly
one output; the returned list holds the lines printed by the handlers
that ran. -/
def compileTimeTypeCheck (t : Ty) : List String :=
  if t = Ty.int then ["Type at compile time is int"]
  else if t = Ty.double then ["Type at compile time is double"]
  else if t = Ty.idFloat then ["Type at compile time is Id<float>"]
  else ["Type at compile time is something else"]

/-- Embedding of `checkTypeDem` (typeChecks.cpp lines 17-22). The C++
code calls abi.cxa_demangle, which returns a possibly-null string and
writes a status code; we model that external call as a function from the
raw name to `Option String × Int`. The source streams the returned
pointer directly, never reads `status`, and emits nothing else: the first
component of the result is the name streamed (`none` when the pointer is
null) and the second is the list of diagnostic conditions signalled,
which is always empty. -/
def checkTypeDem (rawName : String) (demangle : String → Option String × Int) :
    Option String × List String :=
  ((demangle rawName).1, [])

/- ## Helper lemmas -/

lemma flatten_replicate_singleton (n : Nat) (a : β) :
    (List.replicate n [a]).flatten = List.replicate n a := by
  induction n with
  | zero => rfl
  | succ k ih => simp [List.replicate_succ, ih]

lemma mkSizedFill_arr (name : String) (n : Nat) (v : α) :
    (DynamicArray.mkSizedFill name n v).1.arr = List.replicate n ⟨v⟩ := by
  simp [DynamicArray.mkSizedFill, TypedClass.mkValue, TypedClass.copy]

lemma mkSizedFill_trace (name : String) (n : Nat) (v : α) :
    (DynamicArray.mkSizedFill name n v).2 =
      ⟨EventKind.ValueInit, name, none⟩ ::
        List.replicate n ⟨EventKind.Copy, name, some v⟩ := by
  simp [DynamicArray.mkSizedFill, TypedClass.mkValue, TypedClass.copy,
    flatten_replicate_singleton]

lemma mkInitListCells_arr (name : String) (cs : List (TypedClass α)) :
    (DynamicArray.mkInitListCells name cs).1.arr =
      cs.map (fun c => ⟨c.val⟩) := by
  simp [DynamicArray.mkInitListCells, TypedClass.copy]

lemma mkInitListCells_trace (name : String) (cs : List (TypedClass α)) :
    (DynamicArray.mkInitListCells name cs).2 =
      cs.map (fun c => ⟨EventKind.Copy, name, some c.val⟩) := by
  simp [DynamicArray.mkInitListCells, TypedClass.copy]
  induction cs with
  | nil => rfl
  | cons c rest ih => simp [ih]

/- ## Claim theorems -/

/-- Claim C1, as frozen, asserts exactly 2 trace events for the mixed
braced list; the construction in fact emits 4 (each of the two literals
is wrapped into a cell, one ValueInit each, and each cell is then copied
into the vector storage, one Copy each). -/
theorem mixedBraced_two_events_false :
    caseThree.2.length = 4 ∧ (4 : Nat) ≠ 2 := by
  exact ⟨rfl, by decide⟩

/-- Claim C1 amended: the mixed braced-list call selects the braced-list
path over the sized-fill rule, yielding exactly 2 wrapped cells of the
floating element type — not a 10-element SizedFill container — and
exactly 4 trace events: 2 ValueInit followed by 2 Copy, all tagged with
the deduced cell type name. -/
theorem claim_mixedBraced_overrides_sizedFill :
    caseThree.1.arr.length = 2 ∧
    caseThree.1.arr.map TypedClass.getData = [10, (13 : ℚ) / 10] ∧
    caseThree.2.length = 4 ∧
    caseThree.2.map Event.kind =
      [EventKind.ValueInit, EventKind.ValueInit,
        EventKind.Copy, EventKind.Copy] ∧
    (∀ e ∈ caseThree.2, e.typeName = tcDouble) ∧
    caseThree.1.arr.length ≠ 10 := by
  refine ⟨rfl, ?_, rfl, rfl, ?_, by decide⟩
  · simp [caseThree, DynamicArray.mkBracedMixed, DynamicArray.mkInitListCells,
      TypedClass.mkValue, TypedClass.copy, TypedClass.getData, intToFloating]
  · intro e he
    fin_cases he <;> rfl

/-- Claim C2, as frozen, asserts exactly 2n trace events for the unbraced
(n, v) construction; at n = 5 the code emits 6 (the temporary cell is
value-constructed once, then copied 5 times), not 10. -/
theorem sizedFill_two_n_events_false :
    (DynamicArray.mkSizedFill tcDouble 5 ((13 : ℚ) / 10)).2.length = 6 ∧
    (6 : Nat) ≠ 2 * 5 := by
  refine ⟨?_, by decide⟩
  rw [mkSizedFill_trace]
  simp

/-- Claim C2 amended: for every count n and scalar v, the unbraced (n, v)
construction yields a container of length n whose every element is a
wrapped cell holding a value equal to v, and produces exactly n + 1 trace
events: one ValueInit for the single temporary cell, followed by n Copy
events. -/
theorem sizedFill_elements_and_trace (name : String) (n : Nat) (v : α) :
    (DynamicArray.mkSizedFill name n v).1.arr.length = n ∧
    (∀ c ∈ (DynamicArray.mkSizedFill name n v).1.arr, c.getData = v) ∧
    (DynamicArray.mkSizedFill name n v).2 =
      ⟨EventKind.ValueInit, name, none⟩ ::
        List.replicate n ⟨EventKind.Copy, name, some v⟩ ∧
    (DynamicArray.mkSizedFill name n v).2.length = n + 1 := by
  refine ⟨?_, ?_, mkSizedFill_trace name n v, ?_⟩
  · rw [mkSizedFill_arr]; simp
  · intro c hc
    rw [mkSizedFill_arr] at hc
    rw [List.eq_of_mem_replicate hc]
    rfl
  · rw [mkSizedFill_trace]; simp

/-- Claim C3, as frozen, asserts that a SizedFill(n, value) construction
leaves exactly n matching events in the trace log; at n = 2 the code
leaves 3 (one ValueInit for the temporary plus 2 Copy). -/
theorem sizedFill_exactly_n_events_false :
    (DynamicArray.mkSizedFill tcDouble 2 (1 : ℚ)).2.length = 3 ∧
    (3 : Nat) ≠ 2 := by
  refine ⟨?_, by decide⟩
  rw [mkSizedFill_trace]
  simp

/-- Claim C3 amended: a container built via SizedFill(n, value) has every
element a wrapped cell and adds exactly n + 1 construction events (one
ValueInit plus n Copy), all tagged with the same type name; a container
built from a list of already-constructed cells has every element a
wrapped cell and adds exactly as many events as supplied cells, all Copy
and all tagged with the same type name; the Empty, SizedDefault and
plain-scalar List paths create no cell and leave the trace unchanged. -/
theorem construction_trace_invariant (α : Type) [Inhabited α] [DecidableEq α]
    (name : String) (n : Nat) (v : α) (cs : List (TypedClass α)) (vs : List α) :
    ((DynamicArray.mkSizedFill name n v).1.arr = List.replicate n ⟨v⟩ ∧
      (DynamicArray.mkSizedFill name n v).2.length = n + 1 ∧
      ∀ e ∈ (DynamicArray.mkSizedFill name n v).2, e.typeName = name) ∧
    ((DynamicArray.mkInitListCells name cs).1.arr.length = cs.length ∧
      (DynamicArray.mkInitListCells name cs).2.length = cs.length ∧
      ∀ e ∈ (DynamicArray.mkInitListCells name cs).2,
        e.typeName = name ∧ e.kind = EventKind.Copy) ∧
    (DynamicArray.mkEmpty α).2 = [] ∧
    (DynamicArray.mkSized α n).2 = [] ∧
    (DynamicArray.mkInitList vs).2 = [] := by
  refine ⟨⟨mkSizedFill_arr name n v, ?_, ?_⟩, ⟨?_, ?_, ?_⟩, rfl, rfl, rfl⟩
  · rw [mkSizedFill_trace]; simp
  · intro e he
    rw [mkSizedFill_trace] at he
    rcases List.mem_cons.mp he with h | h
    · rw [h]
    · rw [List.eq_of_mem_replicate h]
  · rw [mkInitListCells_arr]; simp
  · rw [mkInitListCells_trace]; simp
  · intro e he
    rw [mkInitListCells_trace] at he
    obtain ⟨c, _, hc⟩ := List.mem_map.mp he
    rw [← hc]
    exact ⟨rfl, rfl⟩

/-- Claim C4: for every scalar element type with a default value and
every count n, the count-only constructor yields a container of length n
whose every element equals the default value, and produces zero trace
events. -/
theorem sizedDefault_spec (α : Type) [Inhabited α] (n : Nat) :
    (DynamicArray.mkSized α n).1.arr.length = n ∧
    (∀ x ∈ (DynamicArray.mkSized α n).1.arr, x = (default : α)) ∧
    (DynamicArray.mkSized α n).2 = [] := by
  refine ⟨by simp [DynamicArray.mkSized], ?_, rfl⟩
  intro x hx
  simp only [DynamicArray.mkSized] at hx
  exact List.eq_of_mem_replicate hx

/-- Claim C5: constructing from a braced list of k bare scalars yields a
container of length k whose elements are exactly the supplied scalars —
the element type is the scalar type, nothing is wrapped — and produces
zero trace events. -/
theorem bracedScalars_spec (vs : List α) :
    (DynamicArray.mkInitList vs).1.arr = vs ∧
    (DynamicArray.mkInitList vs).1.arr.length = vs.length ∧
    (DynamicArray.mkInitList vs).2 = [] :=
  ⟨rfl, rfl, rfl⟩

/-- Claim C6: constructing from a braced list of k already-wrapped cells
yields a container of length k whose i-th element holds exactly the value
of the i-th supplied cell, at the cell type itself (each stored element
is a single-level cell of the source value — no double wrapping). -/
theorem bracedCells_spec (name : String) (cs : List (TypedClass α)) :
    (DynamicArray.mkInitListCells name cs).1.arr.length = cs.length ∧
    (DynamicArray.mkInitListCells name cs).1.arr.map TypedClass.getData =
      cs.map TypedClass.getData ∧
    (DynamicArray.mkInitListCells name cs).1.arr =
      cs.map (fun c => ⟨c.getData⟩) := by
  refine ⟨?_, ?_, ?_⟩ <;>
    simp [mkInitListCells_arr, TypedClass.getData, List.map_map]

/-- Claim C7: the if-constexpr dispatch runs exactly one handler per
call, matching the case type by exact equality only; each registered type
selects its own handler, and any type outside the registered set — such
as Id of double, which matches Id of float by neither subtyping nor
conversion — runs the default handler exactly once. -/
theorem staticDispatch_exact_match (t : Ty)
    (h : t ≠ Ty.int ∧ t ≠ Ty.double ∧ t ≠ Ty.idFloat) :
    (∀ u : Ty, (compileTimeTypeCheck u).length = 1) ∧
    compileTimeTypeCheck Ty.int = ["Type at compile time is int"] ∧
    compileTimeTypeCheck Ty.double = ["Type at compile time is double"] ∧
    compileTimeTypeCheck Ty.idFloat = ["Type at compile time is Id<float>"] ∧
    compileTimeTypeCheck t = ["Type at compile time is something else"] := by
  obtain ⟨h1, h2, h3⟩ := h
  refine ⟨fun u => ?_, rfl, rfl, rfl, ?_⟩
  · cases u <;> rfl
  · rw [compileTimeTypeCheck, if_neg h1, if_neg h2, if_neg h3]

/-- Witness for C7 at the unregistered type Id of double, exactly the
argument main passes on typeChecks.cpp line 57. -/
theorem staticDispatch_exact_match_witness :
    (Ty.idDouble ≠ Ty.int ∧ Ty.idDouble ≠ Ty.double ∧
      Ty.idDouble ≠ Ty.idFloat) ∧
    ((∀ u : Ty, (compileTimeTypeCheck u).length = 1) ∧
      compileTimeTypeCheck Ty.int = ["Type at compile time is int"] ∧
      compileTimeTypeCheck Ty.double = ["Type at compile time is double"] ∧
      compileTimeTypeCheck Ty.idFloat = ["Type at compile time is Id<float>"] ∧
      compileTimeTypeCheck Ty.idDouble =
        ["Type at compile time is something else"]) :=
  ⟨by decide, staticDispatch_exact_match Ty.idDouble (by decide)⟩

/-- Claim C8, as frozen, asserts a rawName fallback and a
DemangleUnavailable diagnostic when demangling fails; the code has
neither: with a failing demangler (null result, nonzero status) the call
streams the null result, not the raw name, and signals nothing. -/
theorem checkTypeDem_fallback_false :
    checkTypeDem "i" (fun _ => (none, -2)) = (none, []) ∧
    (checkTypeDem "i" (fun _ => (none, -2))).1 ≠ some "i" ∧
    (checkTypeDem "i" (fun _ => (none, -2))).2 = [] :=
  ⟨rfl, by decide, rfl⟩

/-- Claim C8 amended: the call never aborts in the model (it is a total
function) and never reads the demangle status, but on demangle failure it
streams the null result directly — there is no fallback to the raw name
and no DemangleUnavailable condition is signalled to any sink. -/
theorem checkTypeDem_ignores_status (raw : String)
    (p : Option String) (s1 s2 : Int) :
    checkTypeDem raw (fun _ => (p, s1)) = checkTypeDem raw (fun _ => (p, s2)) ∧
    (checkTypeDem raw (fun _ => (p, s1))).2 = [] ∧
    (checkTypeDem raw (fun _ => (none, s1))).1 = none :=
  ⟨rfl, rfl, rfl⟩

/-- Claim C9: value construction round-trips — the cell built from x
holds exactly x — and copy construction preserves the held value; the
getter is a pure projection, so reading a cell never changes it. -/
theorem cell_roundtrip (name : String) (x : α) (c : TypedClass α) :
    (TypedClass.mkValue name x).1.getData = x ∧
    (TypedClass.copy name c).1.getData = c.getData ∧
    (TypedClass.copy name c).1 = ⟨c.getData⟩ :=
  ⟨rfl, rfl, rfl⟩

/-- Claim C10: in the mixed braced list of 10 and 1.3, the integer
literal is converted to the deduced floating element type and stored as
data — the first cell holds 10.0 exactly, the second holds 1.3 — and the
container has 2 elements, not 10: the literal 10 is never an element
count. -/
theorem mixedBraced_literal_conversion :
    caseThree.1.arr.map TypedClass.getData =
      [intToFloating 10, (13 : ℚ) / 10] ∧
    intToFloating 10 = 10 ∧
    caseThree.1.arr.length = 2 ∧
    caseThree.1.arr.length ≠ 10 := by
  refine ⟨?_, ?_, rfl, by decide⟩
  · simp [caseThree, DynamicArray.mkBracedMixed, DynamicArray.mkInitListCells,
      TypedClass.mkValue, TypedClass.copy, TypedClass.getData]
  · simp [intToFloating]
